import Mathlib

/-!
GNUstep GUI headers: enumerations and protocols of `NSCollectionView.h` and `NSTextView.h`.

The headers under `Headers/` contain declarations only.  The development below embeds

* the enumeration constants, with the initialiser expressions written in the headers;
* the protocol declarations, as the sequence of preprocessor directives, `@required` /
  `@optional` keywords and method declarations found between `@protocol` and `@end`,
  together with the conditional-compilation pass and the requirement classification that
  the Objective-C compiler applies to that sequence;
* the class interface `NSCollectionView`: its instance variables and the sequence of
  preprocessor directives and method declarations that follows them.

The macros `OS_API_VERSION`, `MAC_OS_X_VERSION_*`, `GS_API_LATEST` and
`GS_PROTOCOLS_HAVE_OPTIONAL` come from `GNUstepBase/GSVersionMacros.h`, which belongs to
another library; they are parameters of the embedding (`Config`).
-/

namespace GNUstepGUI

/-! ## Enumerations of `Headers/AppKit/NSCollectionView.h` -/

/-- C type `NSInteger` (the typedef of the drop-operation and highlight-state enums). -/
abbrev NSInteger := Int

/-- C type `NSUInteger` (the typedef of the scroll-position enum). -/
abbrev NSUInteger := Nat

def NSCollectionViewDropOn : NSInteger := 0
def NSCollectionViewDropBefore : NSInteger := 1

def NSCollectionViewItemHighlightNone : NSInteger := 0
def NSCollectionViewItemHighlightForSelection : NSInteger := 1
def NSCollectionViewItemHighlightForDeselection : NSInteger := 2
def NSCollectionViewItemHighlightAsDropTarget : NSInteger := 3

/-- The four highlight-state constants, in declaration order. -/
def highlightStates : List NSInteger :=
  [ NSCollectionViewItemHighlightNone,
    NSCollectionViewItemHighlightForSelection,
    NSCollectionViewItemHighlightForDeselection,
    NSCollectionViewItemHighlightAsDropTarget ]

def NSCollectionViewScrollPositionNone : NSUInteger := 0
def NSCollectionViewScrollPositionTop : NSUInteger := 1 <<< 0
def NSCollectionViewScrollPositionCenteredVertically : NSUInteger := 1 <<< 1
def NSCollectionViewScrollPositionBottom : NSUInteger := 1 <<< 2
def NSCollectionViewScrollPositionNearestHorizontalEdge : NSUInteger := 1 <<< 9
def NSCollectionViewScrollPositionLeft : NSUInteger := 1 <<< 3
def NSCollectionViewScrollPositionCenteredHorizontally : NSUInteger := 1 <<< 4
def NSCollectionViewScrollPositionRight : NSUInteger := 1 <<< 5
def NSCollectionViewScrollPositionLeadingEdge : NSUInteger := 1 <<< 6
def NSCollectionViewScrollPositionTrailingEdge : NSUInteger := 1 <<< 7
def NSCollectionViewScrollPositionNearestVerticalEdge : NSUInteger := 1 <<< 8

/-- The constants listed under the header comment "Vertical positions are mutually
exclusive to each other, but are bitwise or-able with the horizontal scroll positions",
in declaration order. -/
def verticalScrollPositions : List NSUInteger :=
  [ NSCollectionViewScrollPositionTop,
    NSCollectionViewScrollPositionCenteredVertically,
    NSCollectionViewScrollPositionBottom,
    NSCollectionViewScrollPositionNearestHorizontalEdge ]

/-- The constants listed under the header comment "Likewise, the horizontal positions are
mutually exclusive to each other", in declaration order. -/
def horizontalScrollPositions : List NSUInteger :=
  [ NSCollectionViewScrollPositionLeft,
    NSCollectionViewScrollPositionCenteredHorizontally,
    NSCollectionViewScrollPositionRight,
    NSCollectionViewScrollPositionLeadingEdge,
    NSCollectionViewScrollPositionTrailingEdge,
    NSCollectionViewScrollPositionNearestVerticalEdge ]

/-- The ten scroll-position constants other than `NSCollectionViewScrollPositionNone`. -/
def scrollPositions : List NSUInteger :=
  verticalScrollPositions ++ horizontalScrollPositions

/-- Bitwise OR of a list of `NSUInteger` values (C `a | b | ...`, `0` for none). -/
def orAll (l : List NSUInteger) : NSUInteger :=
  l.foldl (fun acc x => acc ||| x) 0

/-- Number of set bits among the 64 bits of an `NSUInteger`. -/
def popCount (n : NSUInteger) : Nat :=
  (List.range 64).countP (fun i => n.testBit i)

/-- OR of the vertical group: the bits a vertical position may occupy. -/
def verticalMask : NSUInteger := orAll verticalScrollPositions

/-- OR of the horizontal group: the bits a horizontal position may occupy. -/
def horizontalMask : NSUInteger := orAll horizontalScrollPositions

/-! ## Enumerations of `Headers/gnustep/gui/NSTextView.h` -/

def NSSelectByCharacter : Int := 0
def NSSelectByWord : Int := 1
def NSSelectByParagraph : Int := 2

def NSSelectionAffinityUpstream : Int := 0
def NSSelectionAffinityDownstream : Int := 1

/-! ## Conditional compilation and protocol declarations -/

/-- The version macros that occur as arguments of `OS_API_VERSION(...)` in the headers. -/
inductive VersionMacro
  | MAC_OS_X_VERSION_10_6
  | MAC_OS_X_VERSION_10_11
  | MAC_OS_X_VERSION_10_12
  | GS_API_LATEST
  deriving DecidableEq, Repr

/-- A compilation setting: the outcome of every `OS_API_VERSION(added, removed)` test (the
API version setting) and the value of `GS_PROTOCOLS_HAVE_OPTIONAL`.  Both macros are
defined outside these headers, so every outcome is admitted. -/
structure Config where
  OS_API_VERSION : VersionMacro → VersionMacro → Bool
  GS_PROTOCOLS_HAVE_OPTIONAL : Bool

/-- The controlling expression of an `#if` line. -/
inductive Condition
  | osApiVersion (added removed : VersionMacro)
  | protocolsHaveOptional
  deriving DecidableEq, Repr

/-- Value of an `#if` condition under a compilation setting. -/
def Config.holds (cfg : Config) : Condition → Bool
  | .osApiVersion added removed => cfg.OS_API_VERSION added removed
  | .protocolsHaveOptional => cfg.GS_PROTOCOLS_HAVE_OPTIONAL

/-- An Objective-C method declaration `- (returnType) kw1: (T1)a1 kw2: (T2)a2 ...;`:
the return type and, for each keyword of the selector, the keyword and the type of its
argument (white space inside type names normalised, argument names dropped). -/
structure MethodDecl where
  returnType : String
  parts : List (String × String)
  deriving DecidableEq, Repr

/-- The selector (method name) `kw1:kw2:...` of a declaration. -/
def MethodDecl.selector (m : MethodDecl) : String :=
  String.join (m.parts.map (fun kw => kw.1 ++ ":"))

/-- One line between `@protocol` and `@end`. -/
inductive Line
  | hashIf (c : Condition)
  | hashEndif
  | atRequired
  | atOptional
  | method (m : MethodDecl)
  deriving DecidableEq, Repr

/-- The conditional-compilation pass: `stack` holds the values of the enclosing `#if`
conditions, innermost first; a line survives when all of them are true. -/
def preprocess (cfg : Config) : List Bool → List Line → List Line
  | _, [] => []
  | stack, .hashIf c :: rest => preprocess cfg (cfg.holds c :: stack) rest
  | stack, .hashEndif :: rest => preprocess cfg stack.tail rest
  | stack, .atRequired :: rest =>
      if stack.all id then .atRequired :: preprocess cfg stack rest
      else preprocess cfg stack rest
  | stack, .atOptional :: rest =>
      if stack.all id then .atOptional :: preprocess cfg stack rest
      else preprocess cfg stack rest
  | stack, .method m :: rest =>
      if stack.all id then .method m :: preprocess cfg stack rest
      else preprocess cfg stack rest

/-- Whether a conforming class has to implement a protocol method. -/
inductive Requirement
  | required
  | optional
  deriving DecidableEq, Repr

/-- The requirement of each method of a preprocessed protocol body: a method takes the
requirement set by the last `@required` / `@optional` keyword before it; `current` is the
requirement in force at the start of the list. -/
def classify : Requirement → List Line → List (MethodDecl × Requirement)
  | _, [] => []
  | _, .atRequired :: rest => classify .required rest
  | _, .atOptional :: rest => classify .optional rest
  | current, .method m :: rest => (m, current) :: classify current rest
  | current, .hashIf _ :: rest => classify current rest
  | current, .hashEndif :: rest => classify current rest

/-- A protocol declaration `@protocol name <incorporates> body @end`, with the conditions
of the `#if` lines that enclose the whole declaration. -/
structure ProtocolDecl where
  name : String
  incorporates : List String
  availability : List Condition
  body : List Line

/-- The declaration is compiled under the setting. -/
def ProtocolDecl.declared (cfg : Config) (p : ProtocolDecl) : Bool :=
  p.availability.all cfg.holds

/-- The methods the protocol declares under a compilation setting, each with its
requirement.  Where an enclosing `#if` condition fails the whole declaration is compiled
out and there is no method.  Methods declared before any keyword are required (the
Objective-C default). -/
def ProtocolDecl.methods (cfg : Config) (p : ProtocolDecl) : List (MethodDecl × Requirement) :=
  if p.declared cfg then classify .required (preprocess cfg [] p.body) else []

/-- Selectors of the required methods, in declaration order. -/
def requiredSelectors (cfg : Config) (p : ProtocolDecl) : List String :=
  ((p.methods cfg).filter (fun e => e.2 = .required)).map (fun e => e.1.selector)

/-- Selectors of the optional methods, in declaration order. -/
def optionalSelectors (cfg : Config) (p : ProtocolDecl) : List String :=
  ((p.methods cfg).filter (fun e => e.2 = .optional)).map (fun e => e.1.selector)

/-- An application-supplied object: an instance of a class rooted in `NSObject`, described
by the selectors its class implements in addition to those of the root class. -/
structure ObjcObject where
  implements : List String

/-- Protocols to which every such object conforms through its root class. -/
def rootClassProtocols : List String := ["NSObject"]

/-- The object satisfies the protocol: the protocol is declared under the setting, the
incorporated protocols are those of the root class and every required method is
implemented. -/
def satisfies (cfg : Config) (p : ProtocolDecl) (o : ObjcObject) : Bool :=
  p.declared cfg &&
    (p.incorporates.all (fun q => decide (q ∈ rootClassProtocols)) &&
      (requiredSelectors cfg p).all (fun sel => decide (sel ∈ o.implements)))

/-! ### Protocols of `Headers/AppKit/NSCollectionView.h` -/

/-- `#if OS_API_VERSION(MAC_OS_X_VERSION_10_6, GS_API_LATEST)` -/
def since10_6 : Condition := .osApiVersion .MAC_OS_X_VERSION_10_6 .GS_API_LATEST

/-- `#if OS_API_VERSION(MAC_OS_X_VERSION_10_11, GS_API_LATEST)` -/
def since10_11 : Condition := .osApiVersion .MAC_OS_X_VERSION_10_11 .GS_API_LATEST

/-- The first keyword of the protocol methods, `collectionView: (NSCollectionView *)`. -/
def collectionViewPart : String × String := ("collectionView", "NSCollectionView *")

def NSCollectionViewDataSource : ProtocolDecl where
  name := "NSCollectionViewDataSource"
  incorporates := ["NSObject"]
  availability := [since10_11]
  body :=
    [ .hashIf .protocolsHaveOptional,
      .atRequired,
      .hashEndif,
      .method ⟨"NSInteger", [collectionViewPart, ("numberOfItemsInSection", "NSInteger")]⟩,
      .method ⟨"NSCollectionViewItem *",
        [collectionViewPart, ("itemForRepresentedObjectAtIndexPath", "NSIndexPath *")]⟩,
      .hashIf .protocolsHaveOptional,
      .atOptional,
      .hashEndif,
      .method ⟨"NSInteger", [("numberOfSectionsInCollectionView", "NSCollectionView *")]⟩,
      .method ⟨"NSView *",
        [collectionViewPart,
         ("viewForSupplementaryElementOfKind", "NSCollectionViewSupplementaryElementKind"),
         ("atIndexPath", "NSIndexPath *")]⟩ ]

def NSCollectionViewPrefetching : ProtocolDecl where
  name := "NSCollectionViewPrefetching"
  incorporates := ["NSObject"]
  availability := [since10_11]
  body :=
    [ .hashIf .protocolsHaveOptional,
      .atRequired,
      .hashEndif,
      .method ⟨"void", [collectionViewPart, ("prefetchItemsAtIndexPaths", "NSArray *")]⟩,
      .hashIf .protocolsHaveOptional,
      .atOptional,
      .hashEndif,
      .method ⟨"void",
        [collectionViewPart, ("cancelPrefetchingForItemsAtIndexPaths", "NSArray *")]⟩ ]

def NSCollectionViewDelegate : ProtocolDecl where
  name := "NSCollectionViewDelegate"
  incorporates := ["NSObject"]
  availability := []
  body :=
    [ .hashIf .protocolsHaveOptional,
      .atOptional,
      .hashEndif,
      .hashIf since10_11,
      .method ⟨"BOOL",
        [collectionViewPart, ("canDragItemsAtIndexPaths", "NSSet *"),
         ("withEvent", "NSEvent *")]⟩,
      .hashEndif,
      .hashIf since10_6,
      .method ⟨"BOOL",
        [collectionViewPart, ("canDragItemsAtIndexes", "NSIndexSet *"),
         ("withEvent", "NSEvent *")]⟩,
      .hashEndif,
      .hashIf since10_11,
      .method ⟨"BOOL",
        [collectionViewPart, ("writeItemsAtIndexPaths", "NSSet *"),
         ("toPasteboard", "NSPasteboard *")]⟩,
      .hashEndif,
      .hashIf since10_6,
      .method ⟨"BOOL",
        [collectionViewPart, ("writeItemsAtIndexes", "NSIndexSet *"),
         ("toPasteboard", "NSPasteboard *")]⟩,
      .hashEndif,
      .hashIf since10_11,
      .method ⟨"NSArray *",
        [collectionViewPart, ("namesOfPromisedFilesDroppedAtDestination", "NSURL *"),
         ("forDraggedItemsAtIndexPaths", "NSSet *")]⟩,
      .hashEndif,
      .hashIf since10_6,
      .method ⟨"NSArray *",
        [collectionViewPart, ("namesOfPromisedFilesDroppedAtDestination", "NSURL *"),
         ("forDraggedItemsAtIndexes", "NSIndexSet *")]⟩,
      .hashEndif,
      .hashIf since10_11,
      .method ⟨"NSImage *",
        [collectionViewPart, ("draggingImageForItemsAtIndexPaths", "NSSet *"),
         ("withEvent", "NSEvent *"), ("offset", "NSPointPointer")]⟩,
      .hashEndif,
      .hashIf since10_6,
      .method ⟨"NSImage *",
        [collectionViewPart, ("draggingImageForItemsAtIndexes", "NSIndexSet *"),
         ("withEvent", "NSEvent *"), ("offset", "NSPointPointer")]⟩,
      .hashEndif,
      .hashIf since10_11,
      .method ⟨"NSDragOperation",
        [collectionViewPart, ("validateDrop", "id <NSDraggingInfo>"),
         ("proposedIndexPath", "NSIndexPath **"),
         ("dropOperation", "NSCollectionViewDropOperation *")]⟩,
      .hashEndif,
      .hashIf since10_6,
      .method ⟨"NSDragOperation",
        [collectionViewPart, ("validateDrop", "id <NSDraggingInfo>"),
         ("proposedIndex", "NSInteger *"),
         ("dropOperation", "NSCollectionViewDropOperation *")]⟩,
      .hashEndif,
      .hashIf since10_11,
      .method ⟨"BOOL",
        [collectionViewPart, ("acceptDrop", "id <NSDraggingInfo>"),
         ("indexPath", "NSIndexPath *"),
         ("dropOperation", "NSCollectionViewDropOperation")]⟩,
      .hashEndif,
      .hashIf since10_6,
      .method ⟨"BOOL",
        [collectionViewPart, ("acceptDrop", "id <NSDraggingInfo>"),
         ("index", "NSInteger"),
         ("dropOperation", "NSCollectionViewDropOperation")]⟩,
      .hashEndif,
      .hashIf since10_11,
      .method ⟨"id <NSPasteboardWriting>",
        [collectionViewPart, ("pasteboardWriterForItemAtIndexPath", "NSIndexPath *")]⟩,
      .hashEndif,
      .method ⟨"id <NSPasteboardWriting>",
        [collectionViewPart, ("pasteboardWriterForItemAtIndex", "NSUInteger")]⟩,
      .hashIf since10_11,
      .method ⟨"void",
        [collectionViewPart, ("draggingSession", "NSDraggingSession *"),
         ("willBeginAtPoint", "NSPoint"), ("forItemsAtIndexPaths", "NSSet *")]⟩,
      .hashEndif,
      .method ⟨"void",
        [collectionViewPart, ("draggingSession", "NSDraggingSession *"),
         ("willBeginAtPoint", "NSPoint"), ("forItemsAtIndexes", "NSIndexSet *")]⟩,
      .method ⟨"void",
        [collectionViewPart, ("draggingSession", "NSDraggingSession *"),
         ("endedAtPoint", "NSPoint"), ("dragOperation", "NSDragOperation")]⟩,
      .method ⟨"void",
        [collectionViewPart, ("updateDraggingItemsForDrag", "id <NSDraggingInfo>")]⟩,
      .hashIf since10_11,
      .method ⟨"NSSet *",
        [collectionViewPart, ("shouldChangeItemsAtIndexPaths", "NSSet *"),
         ("toHighlightState", "NSCollectionViewItemHighlightState")]⟩,
      .method ⟨"void",
        [collectionViewPart, ("didChangeItemsAtIndexPaths", "NSSet *"),
         ("toHighlightState", "NSCollectionViewItemHighlightState")]⟩,
      .method ⟨"NSSet *", [collectionViewPart, ("shouldSelectItemsAtIndexPaths", "NSSet *")]⟩,
      .method ⟨"NSSet *", [collectionViewPart, ("shouldDeselectItemsAtIndexPaths", "NSSet *")]⟩,
      .method ⟨"void", [collectionViewPart, ("didSelectItemsAtIndexPaths", "NSSet *")]⟩,
      .method ⟨"void", [collectionViewPart, ("didDeselectItemsAtIndexPaths", "NSSet *")]⟩,
      .method ⟨"void",
        [collectionViewPart, ("willDisplayItem", "NSCollectionViewItem *"),
         ("forRepresentedObjectAtIndexPath", "NSIndexPath *")]⟩,
      .method ⟨"void",
        [collectionViewPart, ("willDisplaySupplementaryView", "NSView *"),
         ("forElementKind", "NSCollectionViewSupplementaryElementKind"),
         ("atIndexPath", "NSIndexPath *")]⟩,
      .method ⟨"void",
        [collectionViewPart, ("didEndDisplayingItem", "NSCollectionViewItem *"),
         ("forRepresentedObjectAtIndexPath", "NSIndexPath *")]⟩,
      .method ⟨"void",
        [collectionViewPart, ("didEndDisplayingSupplementaryView", "NSView *"),
         ("forElementOfKind", "NSCollectionViewSupplementaryElementKind"),
         ("atIndexPath", "NSIndexPath *")]⟩,
      .method ⟨"NSCollectionViewTransitionLayout *",
        [collectionViewPart, ("transitionLayoutForOldLayout", "NSCollectionViewLayout *"),
         ("newLayout", "NSCollectionViewLayout *")]⟩,
      .hashEndif ]

/-- A setting with every API gate open and optional protocol methods supported. -/
def latestConfig : Config where
  OS_API_VERSION := fun _ _ => true
  GS_PROTOCOLS_HAVE_OPTIONAL := true

/-- A setting for an API version from 10.6 up to but not including 10.11: the tests
`OS_API_VERSION(MAC_OS_X_VERSION_10_6, GS_API_LATEST)` succeed and those of later versions
fail; optional protocol methods are supported. -/
def api10_6Config : Config where
  OS_API_VERSION := fun added _ => decide (added = .MAC_OS_X_VERSION_10_6)
  GS_PROTOCOLS_HAVE_OPTIONAL := true

/-- The setting whose `OS_API_VERSION(..., GS_API_LATEST)` tests for 10.6, 10.11 and 10.12
have the given outcomes (any other test fails). -/
def gateConfig (open10_6 open10_11 open10_12 optionalSupported : Bool) : Config where
  OS_API_VERSION := fun added removed =>
    match added, removed with
    | .MAC_OS_X_VERSION_10_6, .GS_API_LATEST => open10_6
    | .MAC_OS_X_VERSION_10_11, .GS_API_LATEST => open10_11
    | .MAC_OS_X_VERSION_10_12, .GS_API_LATEST => open10_12
    | _, _ => false
  GS_PROTOCOLS_HAVE_OPTIONAL := optionalSupported

/-- The conditions of the `#if` lines of a protocol body. -/
def conditionsOf : List Line → List Condition
  | [] => []
  | .hashIf c :: rest => c :: conditionsOf rest
  | _ :: rest => conditionsOf rest

/-- The method declarations of a protocol body, each with the conditions of the `#if`
lines that enclose it, innermost first; `stack` holds the conditions open at the start. -/
def gatedMethods : List Condition → List Line → List (MethodDecl × List Condition)
  | _, [] => []
  | stack, .hashIf c :: rest => gatedMethods (c :: stack) rest
  | stack, .hashEndif :: rest => gatedMethods stack.tail rest
  | stack, .method m :: rest => (m, stack) :: gatedMethods stack rest
  | stack, .atRequired :: rest => gatedMethods stack rest
  | stack, .atOptional :: rest => gatedMethods stack rest

/-- The declaration of a selector in a protocol, with its enclosing conditions. -/
def ProtocolDecl.lookup (p : ProtocolDecl) (sel : String) :
    Option (MethodDecl × List Condition) :=
  (gatedMethods [] p.body).find? (fun e => decide (e.1.selector = sel))

/-- Selectors of the methods a protocol declares under a compilation setting. -/
def visibleSelectors (cfg : Config) (p : ProtocolDecl) : List String :=
  (p.methods cfg).map (fun e => e.1.selector)

/-- The type names written in a method declaration: return type, then argument types. -/
def MethodDecl.types (m : MethodDecl) : List String :=
  m.returnType :: m.parts.map (fun kw => kw.2)

/-- The six index-based drag-and-drop methods of `NSCollectionViewDelegate`, each paired
with the index-path method declared just before it in the header. -/
def dragDropVariants : List (String × String) :=
  [ ("collectionView:canDragItemsAtIndexes:withEvent:",
     "collectionView:canDragItemsAtIndexPaths:withEvent:"),
    ("collectionView:writeItemsAtIndexes:toPasteboard:",
     "collectionView:writeItemsAtIndexPaths:toPasteboard:"),
    ("collectionView:namesOfPromisedFilesDroppedAtDestination:forDraggedItemsAtIndexes:",
     "collectionView:namesOfPromisedFilesDroppedAtDestination:forDraggedItemsAtIndexPaths:"),
    ("collectionView:draggingImageForItemsAtIndexes:withEvent:offset:",
     "collectionView:draggingImageForItemsAtIndexPaths:withEvent:offset:"),
    ("collectionView:validateDrop:proposedIndex:dropOperation:",
     "collectionView:validateDrop:proposedIndexPath:dropOperation:"),
    ("collectionView:acceptDrop:index:dropOperation:",
     "collectionView:acceptDrop:indexPath:dropOperation:") ]

/-! ### The class interface `NSCollectionView` -/

/-- `#if OS_API_VERSION(MAC_OS_X_VERSION_10_12, GS_API_LATEST)` -/
def since10_12 : Condition := .osApiVersion .MAC_OS_X_VERSION_10_12 .GS_API_LATEST

/-- A method declaration of a class interface: `- (returnType) name;` without argument, or
a keyword method. -/
inductive InterfaceMethod
  | unary (returnType name : String)
  | keyword (m : MethodDecl)
  deriving DecidableEq, Repr

/-- The selector of an interface method: a method without argument has no colon. -/
def InterfaceMethod.selector : InterfaceMethod → String
  | .unary _ name => name
  | .keyword m => m.selector

/-- The type names written in an interface method declaration. -/
def InterfaceMethod.types : InterfaceMethod → List String
  | .unary returnType _ => [returnType]
  | .keyword m => m.types

/-- One line between the instance-variable block of an `@interface` and its `@end`.
`DEFINE_BLOCK_TYPE(name, ret, args...)` and `DEFINE_BLOCK_TYPE_NO_ARGS(name, ret)` define
a block type and declare no method. -/
inductive InterfaceLine
  | hashIf (c : Condition)
  | hashEndif
  | method (m : InterfaceMethod)
  | defineBlockType (name returnType : String) (argTypes : List String)
  deriving DecidableEq, Repr

/-- The conditional-compilation pass over the lines of a class interface; `stack` as in
`preprocess`. -/
def preprocessInterface (cfg : Config) : List Bool → List InterfaceLine → List InterfaceLine
  | _, [] => []
  | stack, .hashIf c :: rest => preprocessInterface cfg (cfg.holds c :: stack) rest
  | stack, .hashEndif :: rest => preprocessInterface cfg stack.tail rest
  | stack, .method m :: rest =>
      if stack.all id then .method m :: preprocessInterface cfg stack rest
      else preprocessInterface cfg stack rest
  | stack, .defineBlockType name returnType argTypes :: rest =>
      if stack.all id then
        .defineBlockType name returnType argTypes :: preprocessInterface cfg stack rest
      else preprocessInterface cfg stack rest

/-- The method declarations among preprocessed interface lines. -/
def interfaceMethods : List InterfaceLine → List InterfaceMethod
  | [] => []
  | .method m :: rest => m :: interfaceMethods rest
  | _ :: rest => interfaceMethods rest

/-- An instance variable `typeName name;` (the `IBOutlet` marker is dropped). -/
structure InstanceVariable where
  typeName : String
  name : String
  deriving DecidableEq, Repr

/-- A class interface `@interface name : superclass { ivars } body @end`.  The
instance-variable block of `NSCollectionView` contains no `#if` line. -/
structure InterfaceDecl where
  name : String
  superclass : String
  ivars : List InstanceVariable
  body : List InterfaceLine

/-- The methods the interface declares under a compilation setting. -/
def InterfaceDecl.methods (cfg : Config) (i : InterfaceDecl) : List InterfaceMethod :=
  interfaceMethods (preprocessInterface cfg [] i.body)

/-- Selectors of the methods the interface declares under a compilation setting. -/
def InterfaceDecl.selectors (cfg : Config) (i : InterfaceDecl) : List String :=
  (i.methods cfg).map (fun m => m.selector)

/-- The line declaring `- (returnType) name;`. -/
def unaryMethod (returnType name : String) : InterfaceLine :=
  .method (.unary returnType name)

/-- The line declaring the keyword method `- (returnType) kw1: (T1)a1 ...;`. -/
def keywordMethod (returnType : String) (parts : List (String × String)) : InterfaceLine :=
  .method (.keyword ⟨returnType, parts⟩)

/-- Lines 356-387 of the header: the accessors declared outside any `#if`. -/
def NSCollectionViewBody1 : List InterfaceLine :=
  [ unaryMethod "BOOL" "allowsMultipleSelection",
    keywordMethod "void" [("setAllowsMultipleSelection", "BOOL")],
    unaryMethod "NSArray *" "backgroundColors",
    keywordMethod "void" [("setBackgroundColors", "NSArray *")],
    unaryMethod "NSArray *" "content",
    keywordMethod "void" [("setContent", "NSArray *")],
    unaryMethod "id <NSCollectionViewDelegate>" "delegate",
    keywordMethod "void" [("setDelegate", "id <NSCollectionViewDelegate>")],
    unaryMethod "NSCollectionViewItem *" "itemPrototype",
    keywordMethod "void" [("setItemPrototype", "NSCollectionViewItem *")],
    unaryMethod "NSSize" "maxItemSize",
    keywordMethod "void" [("setMaxItemSize", "NSSize")],
    unaryMethod "NSUInteger" "maxNumberOfColumns",
    keywordMethod "void" [("setMaxNumberOfColumns", "NSUInteger")],
    unaryMethod "NSUInteger" "maxNumberOfRows",
    keywordMethod "void" [("setMaxNumberOfRows", "NSUInteger")],
    unaryMethod "NSSize" "minItemSize",
    keywordMethod "void" [("setMinItemSize", "NSSize")],
    unaryMethod "BOOL" "isSelectable",
    keywordMethod "void" [("setSelectable", "BOOL")],
    unaryMethod "NSIndexSet *" "selectionIndexes",
    keywordMethod "void" [("setSelectionIndexes", "NSIndexSet *")] ]

/-- Lines 389-392: the layout accessors, under the 10.11 gate. -/
def NSCollectionViewBody2 : List InterfaceLine :=
  [ .hashIf since10_11,
    unaryMethod "NSCollectionViewLayout *" "collectionViewLayout",
    keywordMethod "void" [("setCollectionViewLayout", "NSCollectionViewLayout *")],
    .hashEndif ]

/-- Lines 394-405: item access, tiling and dragging, outside any `#if`. -/
def NSCollectionViewBody3 : List InterfaceLine :=
  [ keywordMethod "NSRect" [("frameForItemAtIndex", "NSUInteger")],
    keywordMethod "NSCollectionViewItem *" [("itemAtIndex", "NSUInteger")],
    keywordMethod "NSCollectionViewItem *" [("newItemForRepresentedObject", "id")],
    unaryMethod "void" "tile",
    keywordMethod "void"
        [("setDraggingSourceOperationMask", "NSDragOperation"),
         ("forLocal", "BOOL")],
    keywordMethod "NSImage *"
        [("draggingImageForItemsAtIndexes", "NSIndexSet *"),
         ("withEvent", "NSEvent *"),
         ("offset", "NSPointPointer")] ]

/-- Lines 407-463: first part of the block opened by the 10.11 gate of line 407. -/
def NSCollectionViewBody4 : List InterfaceLine :=
  [ .hashIf since10_11,
    unaryMethod "NSArray *" "visibleItems",
    unaryMethod "NSSet *" "indexPathsForVisibleItems",
    keywordMethod "NSArray *"
        [("visibleSupplementaryViewsOfKind", "NSCollectionViewSupplementaryElementKind")],
    keywordMethod "NSSet *"
        [("indexPathsForVisibleSupplementaryElementsOfKind", "NSCollectionViewSupplementaryElementKind")],
    keywordMethod "NSIndexPath *" [("indexPathForItem", "NSCollectionViewItem *")],
    keywordMethod "NSIndexPath *" [("indexPathForItemAtPoint", "NSPoint")],
    keywordMethod "NSCollectionViewItem *" [("itemAtIndexPath", "NSIndexPath *")],
    keywordMethod "NSView *"
        [("supplementaryViewForElementKind", "NSCollectionViewSupplementaryElementKind"),
         ("atIndexPath", "NSIndexPath *")],
    keywordMethod "void"
        [("scrollToItemsAtIndexPaths", "NSSet *"),
         ("scrollPosition", "NSCollectionViewScrollPosition")],
    keywordMethod "NSCollectionViewItem *"
        [("makeItemWithIdentifier", "NSUserInterfaceItemIdentifier"),
         ("forIndexPath", "NSIndexPath *")],
    keywordMethod "void"
        [("registerClass", "Class"),
         ("forItemWithIdentifier", "NSUserInterfaceItemIdentifier")],
    keywordMethod "void"
        [("registerNib", "NSNib *"),
         ("forItemWithIdentifier", "NSUserInterfaceItemIdentifier")],
    keywordMethod "NSView *"
        [("makeSupplementaryViewOfKind", "NSCollectionViewSupplementaryElementKind"),
         ("withIdentifier", "NSUserInterfaceItemIdentifier"),
         ("forIndexPath", "NSIndexPath *")],
    keywordMethod "void"
        [("registerClass", "Class"),
         ("forSupplementaryViewOfKind", "NSCollectionViewSupplementaryElementKind"),
         ("withIdentifier", "NSUserInterfaceItemIdentifier")],
    keywordMethod "void"
        [("registerNib", "NSNib *"),
         ("forSupplementaryViewOfKind", "NSCollectionViewSupplementaryElementKind"),
         ("withIdentifier", "NSUserInterfaceItemIdentifier")],
    unaryMethod "id <NSCollectionViewDataSource>" "dataSource",
    keywordMethod "void" [("setDataSource", "id <NSCollectionViewDataSource>")],
    unaryMethod "NSView *" "backgroundView",
    keywordMethod "void" [("setBackgroundView", "NSView *")] ]

/-- Lines 465-506: rest of the block opened at line 407, with its `#endif`. -/
def NSCollectionViewBody5 : List InterfaceLine :=
  [ unaryMethod "BOOL" "backgroundViewScrollsWithContent",
    keywordMethod "void" [("setBackgroundViewScrollsWithContent", "BOOL")],
    unaryMethod "void" "reloadData",
    keywordMethod "void" [("reloadSections", "NSIndexSet *")],
    keywordMethod "void" [("reloadItemsAtIndexPaths", "NSSet *")],
    unaryMethod "id <NSCollectionViewPrefetching>" "prefetchDataSource",
    keywordMethod "void" [("setPrefetchDataSource", "id <NSCollectionViewPrefetching>")],
    unaryMethod "NSInteger" "numberOfSections",
    keywordMethod "NSInteger" [("numberOfItemsInSection", "NSInteger")],
    keywordMethod "void" [("insertItemsAtIndexPaths", "NSSet *")],
    keywordMethod "void"
        [("moveItemAtIndexPath", "NSIndexPath *"),
         ("toIndexPath", "NSIndexPath *")],
    keywordMethod "void" [("deleteItemsAtIndexPaths", "NSSet *")],
    keywordMethod "void" [("insertSections", "NSIndexSet *")],
    keywordMethod "void" [("moveSection", "NSInteger"), ("toSection", "NSInteger")],
    keywordMethod "void" [("deleteSections", "NSIndexSet *")],
    .hashEndif ]

/-- Lines 508-510: `toggleSectionCollapse:`, under the 10.12 gate. -/
def NSCollectionViewBody6 : List InterfaceLine :=
  [ .hashIf since10_12,
    keywordMethod "IBAction" [("toggleSectionCollapse", "id")],
    .hashEndif ]

/-- Lines 512-542: selection, layout information and batch updates, under the 10.11 gate. -/
def NSCollectionViewBody7 : List InterfaceLine :=
  [ .hashIf since10_11,
    unaryMethod "BOOL" "allowsEmptySelection",
    keywordMethod "void" [("setAllowsEmptySelection", "BOOL")],
    unaryMethod "NSSet *" "selectionIndexPaths",
    keywordMethod "IBAction" [("selectAll", "id")],
    keywordMethod "IBAction" [("deselectAll", "id")],
    keywordMethod "void"
        [("selectItemsAtIndexPaths", "NSSet *"),
         ("scrollPosition", "NSCollectionViewScrollPosition")],
    keywordMethod "void" [("deselectItemsAtIndexPaths", "NSSet *")],
    keywordMethod "NSCollectionViewLayoutAttributes *"
        [("layoutAttributesForItemAtIndexPath", "NSIndexPath *")],
    keywordMethod "NSCollectionViewLayoutAttributes *"
        [("layoutAttributesForSupplementaryElementOfKind", "NSCollectionViewSupplementaryElementKind"),
         ("atIndexPath", "NSIndexPath *")],
    .defineBlockType "GSCollectionViewPerformBatchUpdatesBlock" "void" [],
    .defineBlockType "GSCollectionViewCompletionHandlerBlock" "void" ["BOOL"],
    keywordMethod "void"
        [("performBatchUpdates", "GSCollectionViewPerformBatchUpdatesBlock"),
         ("completionHandler", "GSCollectionViewCompletionHandlerBlock")],
    .hashEndif ]

/-- The instance variables of `NSCollectionView`, in header order. -/
def NSCollectionViewIvars : List InstanceVariable :=
  [ ⟨"NSArray *", "_content"⟩,
    ⟨"NSCollectionViewItem *", "itemPrototype"⟩,
    ⟨"NSMutableArray *", "_items"⟩,
    ⟨"BOOL", "_allowsMultipleSelection"⟩,
    ⟨"BOOL", "_isSelectable"⟩,
    ⟨"BOOL", "_allowsEmptySelection"⟩,
    ⟨"NSIndexSet *", "_selectionIndexes"⟩,
    ⟨"NSArray *", "_backgroundColors"⟩,
    ⟨"id <NSCollectionViewDelegate>", "_delegate"⟩,
    ⟨"id <NSCollectionViewDataSource>", "_dataSource"⟩,
    ⟨"NSView *", "_backgroundView"⟩,
    ⟨"id <NSCollectionViewPrefetching>", "_prefetchDataSource"⟩,
    ⟨"BOOL", "_backgroundViewScrollsWithContent"⟩,
    ⟨"NSSize", "_itemSize"⟩,
    ⟨"NSSize", "_maxItemSize"⟩,
    ⟨"NSSize", "_minItemSize"⟩,
    ⟨"CGFloat", "_tileWidth"⟩,
    ⟨"CGFloat", "_verticalMargin"⟩,
    ⟨"CGFloat", "_horizontalMargin"⟩,
    ⟨"NSUInteger", "_maxNumberOfColumns"⟩,
    ⟨"NSUInteger", "_maxNumberOfRows"⟩,
    ⟨"NSUInteger", "_numberOfColumns"⟩,
    ⟨"NSDragOperation", "_draggingSourceOperationMaskForLocal"⟩,
    ⟨"NSDragOperation", "_draggingSourceOperationMaskForRemote"⟩,
    ⟨"NSUInteger", "_draggingOnRow"⟩,
    ⟨"NSUInteger", "_draggingOnIndex"⟩,
    ⟨"NSCollectionViewLayout *", "_collectionViewLayout"⟩,
    ⟨"NSArray *", "_visibleItems"⟩,
    ⟨"NSSet *", "_indexPathsForVisibleItems"⟩,
    ⟨"NSDictionary *", "_visibleSupplementaryViews"⟩,
    ⟨"NSSet *", "_indexPathsForSupplementaryElementsOfKind"⟩,
    ⟨"NSMapTable *", "_registeredNibs"⟩,
    ⟨"NSMapTable *", "_registeredClasses"⟩,
    ⟨"NSMapTable *", "_registeredNibForItemWithIdentifier"⟩,
    ⟨"NSMapTable *", "_registeredClassForItemWithIdentifier"⟩ ]

/-- The class interface of lines 302-544 of the header. -/
def NSCollectionView : InterfaceDecl where
  name := "NSCollectionView"
  superclass := "NSView"
  ivars := NSCollectionViewIvars
  body :=
    NSCollectionViewBody1 ++
    NSCollectionViewBody2 ++
    NSCollectionViewBody3 ++
    NSCollectionViewBody4 ++
    NSCollectionViewBody5 ++
    NSCollectionViewBody6 ++
    NSCollectionViewBody7

/-! ### Names of gated types in declarations -/

/-- The identifiers of a piece of C text, left to right; `current` is the identifier being
read, last character first. -/
def identifiersAux : List Char → List Char → List String
  | current, [] => if current.isEmpty then [] else [String.mk current.reverse]
  | current, c :: rest =>
      if c.isAlphanum || c == '_' then identifiersAux (c :: current) rest
      else if current.isEmpty then identifiersAux [] rest
      else String.mk current.reverse :: identifiersAux [] rest

/-- The identifiers occurring in a type name such as `id <NSCollectionViewDataSource>`. -/
def identifiers (text : String) : List String :=
  identifiersAux [] text.data

/-- An enum typedef or protocol defined by the header, with the conditions of the `#if`
lines that enclose its definition. -/
structure TypeDecl where
  name : String
  availability : List Condition

/-- The type is defined under the setting. -/
def TypeDecl.visible (cfg : Config) (t : TypeDecl) : Bool :=
  t.availability.all cfg.holds

/-- The enum types and protocols that `NSCollectionView.h` defines under an
`OS_API_VERSION` gate: the two enum typedefs of lines 67-101 and the protocols of lines
106-125 and 127-138. -/
def gatedTypes : List TypeDecl :=
  [ ⟨"NSCollectionViewItemHighlightState", [since10_11]⟩,
    ⟨"NSCollectionViewScrollPosition", [since10_11]⟩,
    ⟨NSCollectionViewDataSource.name, NSCollectionViewDataSource.availability⟩,
    ⟨NSCollectionViewPrefetching.name, NSCollectionViewPrefetching.availability⟩ ]

/-- A declaration that can name a type: its selector or variable name, and the type names
written in it. -/
structure Signature where
  label : String
  types : List String
  deriving DecidableEq, Repr

/-- The declaration names the type. -/
def Signature.names (s : Signature) (typeName : String) : Bool :=
  s.types.any (fun ty => decide (typeName ∈ identifiers ty))

/-- The methods of `NSCollectionViewDelegate` and of `NSCollectionView` that are visible
under the setting. -/
def visibleMethodSignatures (cfg : Config) : List Signature :=
  (NSCollectionViewDelegate.methods cfg).map (fun e => ⟨e.1.selector, e.1.types⟩) ++
    (NSCollectionView.methods cfg).map (fun m => ⟨m.selector, m.types⟩)

/-- The instance variables of `NSCollectionView`; none of them is under an `#if`. -/
def instanceVariableSignatures : List Signature :=
  NSCollectionView.ivars.map (fun v => ⟨v.name, [v.typeName]⟩)

/-- The pairs (declaration, gated type) such that the declaration names the type while
the type is not visible under the setting. -/
def danglingNames (cfg : Config) (decls : List Signature) : List (String × String) :=
  gatedTypes.flatMap (fun t =>
    if t.visible cfg then []
    else (decls.filter (fun s => s.names t.name)).map (fun s => (s.label, t.name)))

/-! ### Settings reduced to the gates the header uses -/

/-- The conditions of the `#if` lines of a class interface. -/
def interfaceConditionsOf : List InterfaceLine → List Condition
  | [] => []
  | .hashIf c :: rest => c :: interfaceConditionsOf rest
  | _ :: rest => interfaceConditionsOf rest

/-- The `#if` conditions that occur in `NSCollectionView.h`. -/
def headerConditions : List Condition :=
  [.protocolsHaveOptional, since10_6, since10_11, since10_12]

/-- The setting that agrees with `cfg` on every condition of the header and lets any
other `OS_API_VERSION` test fail. -/
def Config.normalize (cfg : Config) : Config :=
  gateConfig (cfg.holds since10_6) (cfg.holds since10_11) (cfg.holds since10_12)
    cfg.GS_PROTOCOLS_HAVE_OPTIONAL

/-- The conditions enclosing the declaration of a selector in a protocol, if declared. -/
def ProtocolDecl.gatesOf (p : ProtocolDecl) (sel : String) : Option (List Condition) :=
  (p.lookup sel).map (fun e => e.2)

/-- Return type and number of arguments of a selector declared in a protocol. -/
def ProtocolDecl.shapeOf (p : ProtocolDecl) (sel : String) : Option (String × Nat) :=
  (p.lookup sel).map (fun e => (e.1.returnType, e.1.parts.length))

/-! ## Bit counting lemmas -/

theorem countP_or_decide_eq (p : Nat → Bool) (k : Nat) (l : List Nat) (hl : l.Nodup)
    (hk : k ∈ l) (hp : p k = false) :
    l.countP (fun i => p i || decide (k = i)) = l.countP p + 1 := by
  induction l with
  | nil => simp at hk
  | cons a t ih =>
    rw [List.nodup_cons] at hl
    rw [List.countP_cons, List.countP_cons]
    by_cases hka : k = a
    · subst hka
      have hrest : t.countP (fun i => p i || decide (k = i)) = t.countP p := by
        apply List.countP_congr
        intro i hi
        have : k ≠ i := fun h => hl.1 (h ▸ hi)
        simp [this]
      simp [hrest, hp]
    · have hkt : k ∈ t := by
        rcases List.mem_cons.mp hk with h | h
        · exact absurd h hka
        · exact h
      rw [ih hl.2 hkt]
      simp [hka]
      omega

theorem popCount_or_two_pow (acc k : Nat) (hk : k < 64) (h : acc.testBit k = false) :
    popCount (acc ||| 2 ^ k) = popCount acc + 1 := by
  unfold popCount
  have := countP_or_decide_eq (fun i => acc.testBit i) k (List.range 64)
    (List.nodup_range 64) (List.mem_range.mpr hk) h
  rw [← this]
  apply List.countP_congr
  intro i _
  simp [Nat.testBit_or, Nat.testBit_two_pow]

theorem popCount_foldl_or (s : List Nat) : ∀ acc : Nat, s.Nodup →
    (∀ x ∈ s, ∃ k, k < 64 ∧ x = 2 ^ k ∧ acc.testBit k = false) →
    popCount (s.foldl (fun a x => a ||| x) acc) = popCount acc + s.length := by
  induction s with
  | nil => intro acc _ _; simp
  | cons x t ih =>
    intro acc hnd hx
    rw [List.nodup_cons] at hnd
    obtain ⟨k, hk, rfl, hbit⟩ := hx _ (List.mem_cons_self _ _)
    rw [List.foldl_cons, ih (acc ||| 2 ^ k) hnd.2, popCount_or_two_pow acc k hk hbit,
      List.length_cons]
    · omega
    · intro y hy
      obtain ⟨j, hj, rfl, hbj⟩ := hx _ (List.mem_cons_of_mem _ hy)
      refine ⟨j, hj, rfl, ?_⟩
      have hne : k ≠ j := by
        rintro rfl
        exact hnd.1 hy
      simp [Nat.testBit_or, Nat.testBit_two_pow, hbj, hne]

theorem scrollPositions_two_pow :
    ∀ x ∈ scrollPositions, ∃ k, k < 64 ∧ x = 2 ^ k := by
  intro x hx
  simp only [scrollPositions, verticalScrollPositions, horizontalScrollPositions,
    List.cons_append, List.nil_append, List.mem_cons, List.mem_singleton] at hx
  rcases hx with h | h | h | h | h | h | h | h | h | h | h
  · exact ⟨0, by decide, h⟩
  · exact ⟨1, by decide, h⟩
  · exact ⟨2, by decide, h⟩
  · exact ⟨9, by decide, h⟩
  · exact ⟨3, by decide, h⟩
  · exact ⟨4, by decide, h⟩
  · exact ⟨5, by decide, h⟩
  · exact ⟨6, by decide, h⟩
  · exact ⟨7, by decide, h⟩
  · exact ⟨8, by decide, h⟩
  · exact absurd h (List.not_mem_nil x)

/-! ## Lemmas on the compilation pass -/

theorem mem_of_mem_preprocess (cfg : Config) (l : Line) :
    ∀ (ls : List Line) (stack : List Bool), l ∈ preprocess cfg stack ls → l ∈ ls := by
  intro ls
  induction ls with
  | nil => intro stack h; simp [preprocess] at h
  | cons a t ih =>
    intro stack h
    cases a with
    | hashIf c => exact List.mem_cons_of_mem _ (ih _ (by simpa [preprocess] using h))
    | hashEndif => exact List.mem_cons_of_mem _ (ih _ (by simpa [preprocess] using h))
    | atRequired =>
      simp only [preprocess] at h
      split at h
      · rcases List.mem_cons.mp h with h1 | h1
        · exact h1 ▸ List.mem_cons_self _ _
        · exact List.mem_cons_of_mem _ (ih _ h1)
      · exact List.mem_cons_of_mem _ (ih _ h)
    | atOptional =>
      simp only [preprocess] at h
      split at h
      · rcases List.mem_cons.mp h with h1 | h1
        · exact h1 ▸ List.mem_cons_self _ _
        · exact List.mem_cons_of_mem _ (ih _ h1)
      · exact List.mem_cons_of_mem _ (ih _ h)
    | method m =>
      simp only [preprocess] at h
      split at h
      · rcases List.mem_cons.mp h with h1 | h1
        · exact h1 ▸ List.mem_cons_self _ _
        · exact List.mem_cons_of_mem _ (ih _ h1)
      · exact List.mem_cons_of_mem _ (ih _ h)

theorem classify_optional_of_no_required :
    ∀ ls : List Line, Line.atRequired ∉ ls →
      ∀ e ∈ classify Requirement.optional ls, e.2 = Requirement.optional := by
  intro ls
  induction ls with
  | nil => intro _ e he; simp [classify] at he
  | cons a t ih =>
    intro hno e he
    have hnot : Line.atRequired ∉ t := fun h => hno (List.mem_cons_of_mem _ h)
    cases a with
    | hashIf c => exact ih hnot e (by simpa [classify] using he)
    | hashEndif => exact ih hnot e (by simpa [classify] using he)
    | atRequired => exact absurd (List.mem_cons_self _ _) hno
    | atOptional => exact ih hnot e (by simpa [classify] using he)
    | method m =>
      simp only [classify] at he
      rcases List.mem_cons.mp he with h1 | h1
      · rw [h1]
      · exact ih hnot e h1

theorem holds_normalize (cfg : Config) :
    ∀ c ∈ headerConditions, cfg.holds c = cfg.normalize.holds c := by
  intro c hc
  simp only [headerConditions, List.mem_cons, List.mem_singleton, List.not_mem_nil,
    or_false] at hc
  rcases hc with h | h | h | h <;> subst h <;> rfl

theorem preprocess_congr (cfg cfg' : Config) :
    ∀ (ls : List Line) (stack : List Bool),
      (∀ c ∈ conditionsOf ls, cfg.holds c = cfg'.holds c) →
      preprocess cfg stack ls = preprocess cfg' stack ls := by
  intro ls
  induction ls with
  | nil => intro stack _; simp [preprocess]
  | cons a t ih =>
    intro stack h
    cases a with
    | hashIf c =>
      have hc : cfg.holds c = cfg'.holds c := h c (by simp [conditionsOf])
      have ht : ∀ d ∈ conditionsOf t, cfg.holds d = cfg'.holds d :=
        fun d hd => h d (by simp [conditionsOf, hd])
      simp only [preprocess, hc]
      exact ih _ ht
    | hashEndif =>
      simp only [preprocess]
      exact ih _ (fun d hd => h d (by simpa [conditionsOf] using hd))
    | atRequired =>
      simp only [preprocess]
      rw [ih stack (fun d hd => h d (by simpa [conditionsOf] using hd))]
    | atOptional =>
      simp only [preprocess]
      rw [ih stack (fun d hd => h d (by simpa [conditionsOf] using hd))]
    | method m =>
      simp only [preprocess]
      rw [ih stack (fun d hd => h d (by simpa [conditionsOf] using hd))]

theorem preprocessInterface_congr (cfg cfg' : Config) :
    ∀ (ls : List InterfaceLine) (stack : List Bool),
      (∀ c ∈ interfaceConditionsOf ls, cfg.holds c = cfg'.holds c) →
      preprocessInterface cfg stack ls = preprocessInterface cfg' stack ls := by
  intro ls
  induction ls with
  | nil => intro stack _; simp [preprocessInterface]
  | cons a t ih =>
    intro stack h
    cases a with
    | hashIf c =>
      have hc : cfg.holds c = cfg'.holds c := h c (by simp [interfaceConditionsOf])
      have ht : ∀ d ∈ interfaceConditionsOf t, cfg.holds d = cfg'.holds d :=
        fun d hd => h d (by simp [interfaceConditionsOf, hd])
      simp only [preprocessInterface, hc]
      exact ih _ ht
    | hashEndif =>
      simp only [preprocessInterface]
      exact ih _ (fun d hd => h d (by simpa [interfaceConditionsOf] using hd))
    | method m =>
      simp only [preprocessInterface]
      rw [ih stack (fun d hd => h d (by simpa [interfaceConditionsOf] using hd))]
    | defineBlockType name returnType argTypes =>
      simp only [preprocessInterface]
      rw [ih stack (fun d hd => h d (by simpa [interfaceConditionsOf] using hd))]

theorem all_holds_normalize (cfg : Config) :
    ∀ l : List Condition, (∀ c ∈ l, c ∈ headerConditions) →
      l.all cfg.holds = l.all cfg.normalize.holds := by
  intro l
  induction l with
  | nil => intro _; rfl
  | cons a t ih =>
    intro h
    rw [List.all_cons, List.all_cons, holds_normalize cfg a (h a (List.mem_cons_self _ _)),
      ih (fun c hc => h c (List.mem_cons_of_mem _ hc))]

theorem protocol_methods_normalize (p : ProtocolDecl)
    (ha : ∀ c ∈ p.availability, c ∈ headerConditions)
    (hp : ∀ c ∈ conditionsOf p.body, c ∈ headerConditions) (cfg : Config) :
    p.methods cfg = p.methods cfg.normalize := by
  unfold ProtocolDecl.methods ProtocolDecl.declared
  rw [preprocess_congr cfg cfg.normalize p.body []
    (fun c hc => holds_normalize cfg c (hp c hc)),
    all_holds_normalize cfg p.availability ha]

theorem interface_methods_normalize (i : InterfaceDecl)
    (hi : ∀ c ∈ interfaceConditionsOf i.body, c ∈ headerConditions) (cfg : Config) :
    i.methods cfg = i.methods cfg.normalize := by
  unfold InterfaceDecl.methods
  rw [preprocessInterface_congr cfg cfg.normalize i.body []
    (fun c hc => holds_normalize cfg c (hi c hc))]

theorem delegate_conditions :
    ∀ c ∈ conditionsOf NSCollectionViewDelegate.body, c ∈ headerConditions := by
  decide

theorem dataSource_conditions :
    ∀ c ∈ conditionsOf NSCollectionViewDataSource.body, c ∈ headerConditions := by
  decide

theorem delegate_availability :
    ∀ c ∈ NSCollectionViewDelegate.availability, c ∈ headerConditions := by
  decide

theorem dataSource_availability :
    ∀ c ∈ NSCollectionViewDataSource.availability, c ∈ headerConditions := by
  decide

theorem collectionView_conditions :
    ∀ c ∈ interfaceConditionsOf NSCollectionView.body, c ∈ headerConditions := by
  decide

theorem danglingNames_normalize (cfg : Config) (decls : List Signature) :
    danglingNames cfg decls = danglingNames cfg.normalize decls := rfl

/-- Under every setting, each method of `NSCollectionViewDelegate` and of
`NSCollectionView` that names a gated enum type or protocol is visible only where that
type is. -/
theorem methods_name_visible_types (cfg : Config) :
    danglingNames cfg (visibleMethodSignatures cfg) = [] := by
  rw [danglingNames_normalize]
  unfold visibleMethodSignatures
  rw [protocol_methods_normalize _ delegate_availability delegate_conditions cfg,
    interface_methods_normalize _ collectionView_conditions cfg]
  unfold Config.normalize
  generalize cfg.holds since10_6 = b6
  generalize cfg.holds since10_11 = b11
  generalize cfg.holds since10_12 = b12
  generalize cfg.GS_PROTOCOLS_HAVE_OPTIONAL = opt
  cases b6 <;> cases b11 <;> cases b12 <;> cases opt <;> decide

/-! ## Theorems -/

/-- C1: the NSCollectionViewScrollPosition constants are None = 0, Top = 1,
CenteredVertically = 2, Bottom = 4, Left = 8, CenteredHorizontally = 16, Right = 32,
LeadingEdge = 64, TrailingEdge = 128, NearestVerticalEdge = 256 and
NearestHorizontalEdge = 512. -/
theorem scrollPosition_values :
    NSCollectionViewScrollPositionNone = 0 ∧
    NSCollectionViewScrollPositionTop = 1 ∧
    NSCollectionViewScrollPositionCenteredVertically = 2 ∧
    NSCollectionViewScrollPositionBottom = 4 ∧
    NSCollectionViewScrollPositionLeft = 8 ∧
    NSCollectionViewScrollPositionCenteredHorizontally = 16 ∧
    NSCollectionViewScrollPositionRight = 32 ∧
    NSCollectionViewScrollPositionLeadingEdge = 64 ∧
    NSCollectionViewScrollPositionTrailingEdge = 128 ∧
    NSCollectionViewScrollPositionNearestVerticalEdge = 256 ∧
    NSCollectionViewScrollPositionNearestHorizontalEdge = 512 := by
  decide

/-- C2: the vertical group and the horizontal group of scroll positions share no bit,
and for every vertical position v and horizontal position h, masking `v | h` with the OR
of the vertical group gives back v and masking it with the OR of the horizontal group
gives back h. -/
theorem vertical_horizontal_orable :
    verticalMask &&& horizontalMask = 0 ∧
    ∀ v ∈ verticalScrollPositions, ∀ h ∈ horizontalScrollPositions,
      v &&& h = 0 ∧ (v ||| h) &&& verticalMask = v ∧ (v ||| h) &&& horizontalMask = h := by
  decide

/-- Instance of `vertical_horizontal_orable` at Top | Right. -/
theorem vertical_horizontal_orable_witness :
    (NSCollectionViewScrollPositionTop ||| NSCollectionViewScrollPositionRight)
        &&& verticalMask = NSCollectionViewScrollPositionTop ∧
    (NSCollectionViewScrollPositionTop ||| NSCollectionViewScrollPositionRight)
        &&& horizontalMask = NSCollectionViewScrollPositionRight :=
  (vertical_horizontal_orable.2 NSCollectionViewScrollPositionTop (by decide)
    NSCollectionViewScrollPositionRight (by decide)).2

/-- C3: each of the ten non-None scroll-position constants is a power of two and the ten
are pairwise distinct; the OR of two different constants of one grouping (vertical or
horizontal) equals neither NSCollectionViewScrollPositionNone nor any single constant; and
the OR of any set of the constants has exactly as many set bits as the set has members. -/
theorem scrollPositions_exclusive_recognisable :
    (∀ c ∈ scrollPositions, ∃ k, c = 2 ^ k) ∧
    scrollPositions.length = 10 ∧
    scrollPositions.Pairwise (fun a b => a ≠ b) ∧
    (∀ a ∈ verticalScrollPositions, ∀ b ∈ verticalScrollPositions, a ≠ b →
      a ||| b ≠ NSCollectionViewScrollPositionNone ∧ ∀ c ∈ scrollPositions, a ||| b ≠ c) ∧
    (∀ a ∈ horizontalScrollPositions, ∀ b ∈ horizontalScrollPositions, a ≠ b →
      a ||| b ≠ NSCollectionViewScrollPositionNone ∧ ∀ c ∈ scrollPositions, a ||| b ≠ c) ∧
    (∀ s : List NSUInteger, s.Nodup → (∀ x ∈ s, x ∈ scrollPositions) →
      popCount (orAll s) = s.length) := by
  refine ⟨?_, by decide, by decide, by decide, by decide, ?_⟩
  · intro c hc
    obtain ⟨k, _, hk⟩ := scrollPositions_two_pow c hc
    exact ⟨k, hk⟩
  · intro s hnd hmem
    have h := popCount_foldl_or s 0 hnd (fun x hx => by
      obtain ⟨k, hk, hxk⟩ := scrollPositions_two_pow x (hmem x hx)
      exact ⟨k, hk, hxk, by simp⟩)
    have h0 : popCount 0 = 0 := by decide
    rw [h0, Nat.zero_add] at h
    exact h

/-- Instance of `scrollPositions_exclusive_recognisable` at the set
{Bottom, Left, NearestHorizontalEdge}, whose OR 4 | 8 | 512 = 524 has three set bits. -/
theorem scrollPositions_exclusive_recognisable_witness :
    popCount (orAll [NSCollectionViewScrollPositionBottom, NSCollectionViewScrollPositionLeft,
      NSCollectionViewScrollPositionNearestHorizontalEdge]) = 3 :=
  scrollPositions_exclusive_recognisable.2.2.2.2.2
    [NSCollectionViewScrollPositionBottom, NSCollectionViewScrollPositionLeft,
      NSCollectionViewScrollPositionNearestHorizontalEdge] (by decide) (by decide)

/-- C4: the NSCollectionViewDropOperation constants are NSCollectionViewDropOn = 0 and
NSCollectionViewDropBefore = 1, two distinct values. -/
theorem dropOperation_values :
    NSCollectionViewDropOn = 0 ∧ NSCollectionViewDropBefore = 1 ∧
    NSCollectionViewDropOn ≠ NSCollectionViewDropBefore := by
  decide

/-- C5: the NSCollectionViewItemHighlightState constants are None = 0, ForSelection = 1,
ForDeselection = 2 and AsDropTarget = 3; they are pairwise distinct and are exactly the
integers 0 through 3. -/
theorem highlightState_values :
    NSCollectionViewItemHighlightNone = 0 ∧
    NSCollectionViewItemHighlightForSelection = 1 ∧
    NSCollectionViewItemHighlightForDeselection = 2 ∧
    NSCollectionViewItemHighlightAsDropTarget = 3 ∧
    highlightStates.Pairwise (fun a b => a ≠ b) ∧
    ∀ n : NSInteger, n ∈ highlightStates ↔ 0 ≤ n ∧ n ≤ 3 := by
  refine ⟨rfl, rfl, rfl, rfl, by decide, ?_⟩
  intro n
  simp only [highlightStates, NSCollectionViewItemHighlightNone,
    NSCollectionViewItemHighlightForSelection, NSCollectionViewItemHighlightForDeselection,
    NSCollectionViewItemHighlightAsDropTarget, List.mem_cons, List.mem_singleton,
    List.not_mem_nil, or_false]
  have key : ∀ m : Int, (m = 0 ∨ m = 1 ∨ m = 2 ∨ m = 3) ↔ (0 ≤ m ∧ m ≤ 3) := by
    intro m
    omega
  exact key n

/-- C6: the NSSelectionGranularity constants are NSSelectByCharacter = 0,
NSSelectByWord = 1 and NSSelectByParagraph = 2, so they are numerically ordered
character < word < paragraph. -/
theorem selectionGranularity_values :
    NSSelectByCharacter = 0 ∧ NSSelectByWord = 1 ∧ NSSelectByParagraph = 2 ∧
    NSSelectByCharacter < NSSelectByWord ∧ NSSelectByWord < NSSelectByParagraph := by
  decide

/-- C7: the NSSelectionAffinity constants are NSSelectionAffinityUpstream = 0 and
NSSelectionAffinityDownstream = 1, two distinct values. -/
theorem selectionAffinity_values :
    NSSelectionAffinityUpstream = 0 ∧ NSSelectionAffinityDownstream = 1 ∧
    NSSelectionAffinityUpstream ≠ NSSelectionAffinityDownstream := by
  decide

/-- C8 (amended): when GS_PROTOCOLS_HAVE_OPTIONAL is set and
OS_API_VERSION(MAC_OS_X_VERSION_10_11, GS_API_LATEST) holds, NSCollectionViewDataSource is
declared, its required methods are exactly collectionView:numberOfItemsInSection: and
collectionView:itemForRepresentedObjectAtIndexPath:, its optional methods are exactly
numberOfSectionsInCollectionView: and
collectionView:viewForSupplementaryElementOfKind:atIndexPath:, and an object implementing
only the two required methods satisfies the protocol. -/
theorem dataSource_required_optional (cfg : Config)
    (hopt : cfg.GS_PROTOCOLS_HAVE_OPTIONAL = true)
    (hapi : cfg.OS_API_VERSION .MAC_OS_X_VERSION_10_11 .GS_API_LATEST = true) :
    NSCollectionViewDataSource.declared cfg = true ∧
    requiredSelectors cfg NSCollectionViewDataSource =
      ["collectionView:numberOfItemsInSection:",
       "collectionView:itemForRepresentedObjectAtIndexPath:"] ∧
    optionalSelectors cfg NSCollectionViewDataSource =
      ["numberOfSectionsInCollectionView:",
       "collectionView:viewForSupplementaryElementOfKind:atIndexPath:"] ∧
    satisfies cfg NSCollectionViewDataSource
      ⟨["collectionView:numberOfItemsInSection:",
        "collectionView:itemForRepresentedObjectAtIndexPath:"]⟩ = true ∧
    ∀ o : ObjcObject, satisfies cfg NSCollectionViewDataSource o = true ↔
      ("collectionView:numberOfItemsInSection:" ∈ o.implements ∧
       "collectionView:itemForRepresentedObjectAtIndexPath:" ∈ o.implements) := by
  obtain ⟨api, opt⟩ := cfg
  simp only at hopt hapi
  subst hopt
  have hdecl : NSCollectionViewDataSource.declared ⟨api, true⟩ = true := by
    simp [ProtocolDecl.declared, NSCollectionViewDataSource, since10_11, Config.holds, hapi]
  have hm : NSCollectionViewDataSource.methods ⟨api, true⟩ =
      classify .required (preprocess ⟨api, true⟩ [] NSCollectionViewDataSource.body) := by
    unfold ProtocolDecl.methods
    rw [if_pos hdecl]
  have hreq : requiredSelectors ⟨api, true⟩ NSCollectionViewDataSource =
      ["collectionView:numberOfItemsInSection:",
       "collectionView:itemForRepresentedObjectAtIndexPath:"] := by
    unfold requiredSelectors
    rw [hm]
    rfl
  have hoptional : optionalSelectors ⟨api, true⟩ NSCollectionViewDataSource =
      ["numberOfSectionsInCollectionView:",
       "collectionView:viewForSupplementaryElementOfKind:atIndexPath:"] := by
    unfold optionalSelectors
    rw [hm]
    rfl
  have hinc : NSCollectionViewDataSource.incorporates.all
      (fun q => decide (q ∈ rootClassProtocols)) = true := rfl
  refine ⟨hdecl, hreq, hoptional, ?_, ?_⟩
  · simp [satisfies, hreq, hinc, hdecl]
  · intro o
    simp [satisfies, hreq, hinc, hdecl]

/-- Instance of `dataSource_required_optional` at the setting with every API gate open. -/
theorem dataSource_required_optional_witness :
    latestConfig.GS_PROTOCOLS_HAVE_OPTIONAL = true ∧
    latestConfig.OS_API_VERSION .MAC_OS_X_VERSION_10_11 .GS_API_LATEST = true ∧
    requiredSelectors latestConfig NSCollectionViewDataSource =
      ["collectionView:numberOfItemsInSection:",
       "collectionView:itemForRepresentedObjectAtIndexPath:"] :=
  ⟨rfl, rfl, (dataSource_required_optional latestConfig rfl rfl).2.1⟩

/-- C8 as stated fails: at the API 10.6 setting GS_PROTOCOLS_HAVE_OPTIONAL is set, yet
the `#if` of line 106 compiles NSCollectionViewDataSource out, so the protocol has no
required method and an object implementing the two selectors does not satisfy it. -/
theorem dataSource_required_optional_counterexample :
    api10_6Config.GS_PROTOCOLS_HAVE_OPTIONAL = true ∧
    NSCollectionViewDataSource.declared api10_6Config = false ∧
    requiredSelectors api10_6Config NSCollectionViewDataSource = [] ∧
    requiredSelectors api10_6Config NSCollectionViewDataSource ≠
      ["collectionView:numberOfItemsInSection:",
       "collectionView:itemForRepresentedObjectAtIndexPath:"] ∧
    optionalSelectors api10_6Config NSCollectionViewDataSource = [] ∧
    satisfies api10_6Config NSCollectionViewDataSource
      ⟨["collectionView:numberOfItemsInSection:",
        "collectionView:itemForRepresentedObjectAtIndexPath:"]⟩ = false := by
  decide

/-- C9 (amended): when GS_PROTOCOLS_HAVE_OPTIONAL is set and
OS_API_VERSION(MAC_OS_X_VERSION_10_11, GS_API_LATEST) holds, NSCollectionViewPrefetching
is declared and has exactly one required method,
collectionView:prefetchItemsAtIndexPaths:, and exactly one optional method,
collectionView:cancelPrefetchingForItemsAtIndexPaths:. -/
theorem prefetching_required_optional (cfg : Config)
    (hopt : cfg.GS_PROTOCOLS_HAVE_OPTIONAL = true)
    (hapi : cfg.OS_API_VERSION .MAC_OS_X_VERSION_10_11 .GS_API_LATEST = true) :
    NSCollectionViewPrefetching.declared cfg = true ∧
    requiredSelectors cfg NSCollectionViewPrefetching =
      ["collectionView:prefetchItemsAtIndexPaths:"] ∧
    optionalSelectors cfg NSCollectionViewPrefetching =
      ["collectionView:cancelPrefetchingForItemsAtIndexPaths:"] ∧
    (NSCollectionViewPrefetching.methods cfg).length = 2 := by
  obtain ⟨api, opt⟩ := cfg
  simp only at hopt hapi
  subst hopt
  have hdecl : NSCollectionViewPrefetching.declared ⟨api, true⟩ = true := by
    simp [ProtocolDecl.declared, NSCollectionViewPrefetching, since10_11, Config.holds, hapi]
  have hm : NSCollectionViewPrefetching.methods ⟨api, true⟩ =
      classify .required (preprocess ⟨api, true⟩ [] NSCollectionViewPrefetching.body) := by
    unfold ProtocolDecl.methods
    rw [if_pos hdecl]
  refine ⟨hdecl, ?_, ?_, ?_⟩
  · unfold requiredSelectors
    rw [hm]
    rfl
  · unfold optionalSelectors
    rw [hm]
    rfl
  · rw [hm]
    rfl

/-- Instance of `prefetching_required_optional` at the setting with every API gate open. -/
theorem prefetching_required_optional_witness :
    latestConfig.GS_PROTOCOLS_HAVE_OPTIONAL = true ∧
    latestConfig.OS_API_VERSION .MAC_OS_X_VERSION_10_11 .GS_API_LATEST = true ∧
    optionalSelectors latestConfig NSCollectionViewPrefetching =
      ["collectionView:cancelPrefetchingForItemsAtIndexPaths:"] :=
  ⟨rfl, rfl, (prefetching_required_optional latestConfig rfl rfl).2.2.1⟩

/-- C9 as stated fails: at the API 10.6 setting GS_PROTOCOLS_HAVE_OPTIONAL is set, yet
the `#if` of line 127 compiles NSCollectionViewPrefetching out, so the protocol has
neither a required nor an optional method. -/
theorem prefetching_required_optional_counterexample :
    api10_6Config.GS_PROTOCOLS_HAVE_OPTIONAL = true ∧
    NSCollectionViewPrefetching.declared api10_6Config = false ∧
    NSCollectionViewPrefetching.methods api10_6Config = [] ∧
    requiredSelectors api10_6Config NSCollectionViewPrefetching ≠
      ["collectionView:prefetchItemsAtIndexPaths:"] ∧
    optionalSelectors api10_6Config NSCollectionViewPrefetching ≠
      ["collectionView:cancelPrefetchingForItemsAtIndexPaths:"] := by
  decide

/-- C10: when GS_PROTOCOLS_HAVE_OPTIONAL is set, at every API version setting every
method of NSCollectionViewDelegate is optional, the set of required methods is empty, and
an object that implements none of the methods satisfies the protocol. -/
theorem delegate_all_optional (cfg : Config)
    (hopt : cfg.GS_PROTOCOLS_HAVE_OPTIONAL = true) :
    (∀ e ∈ NSCollectionViewDelegate.methods cfg, e.2 = Requirement.optional) ∧
    requiredSelectors cfg NSCollectionViewDelegate = [] ∧
    optionalSelectors cfg NSCollectionViewDelegate =
      (NSCollectionViewDelegate.methods cfg).map (fun e => e.1.selector) ∧
    satisfies cfg NSCollectionViewDelegate ⟨[]⟩ = true := by
  have hbody : NSCollectionViewDelegate.body =
      .hashIf .protocolsHaveOptional :: .atOptional :: .hashEndif ::
        NSCollectionViewDelegate.body.drop 3 := rfl
  have hnone : Line.atRequired ∉ NSCollectionViewDelegate.body.drop 3 := by decide
  have hmethods : NSCollectionViewDelegate.methods cfg =
      classify .optional (preprocess cfg [] (NSCollectionViewDelegate.body.drop 3)) := by
    have hdecl : NSCollectionViewDelegate.declared cfg = true := rfl
    unfold ProtocolDecl.methods
    rw [if_pos hdecl, hbody]
    simp [preprocess, classify, Config.holds, hopt]
  have hall : ∀ e ∈ NSCollectionViewDelegate.methods cfg, e.2 = Requirement.optional := by
    rw [hmethods]
    exact classify_optional_of_no_required _
      (fun h => hnone (mem_of_mem_preprocess cfg _ _ _ h))
  have hreq : requiredSelectors cfg NSCollectionViewDelegate = [] := by
    unfold requiredSelectors
    rw [List.filter_eq_nil_iff.mpr (fun e he => by simp [hall e he])]
    rfl
  refine ⟨hall, hreq, ?_, ?_⟩
  · unfold optionalSelectors
    rw [List.filter_eq_self.mpr (fun e he => by simp [hall e he])]
  · have hinc : NSCollectionViewDelegate.incorporates.all
        (fun q => decide (q ∈ rootClassProtocols)) = true := rfl
    have hdecl : NSCollectionViewDelegate.declared cfg = true := rfl
    simp [satisfies, hreq, hinc, hdecl]

/-- Instance of `delegate_all_optional` at the setting with every API gate open, where
the protocol declares 29 methods. -/
theorem delegate_all_optional_witness :
    latestConfig.GS_PROTOCOLS_HAVE_OPTIONAL = true ∧
    (NSCollectionViewDelegate.methods latestConfig).length = 29 ∧
    requiredSelectors latestConfig NSCollectionViewDelegate = [] :=
  ⟨rfl, rfl, (delegate_all_optional latestConfig rfl).2.1⟩

/-- C11 (not met by the header): at a setting for an API version from 10.6 up to but not
including 10.11, the protocols NSCollectionViewDataSource and NSCollectionViewPrefetching
are not declared, yet the instance variables `_dataSource` and `_prefetchDataSource` of
NSCollectionView, which stand outside any `#if`, name them; no visible method names a
gated type that is not visible. -/
theorem instance_variables_name_undeclared_protocols :
    NSCollectionViewDataSource.declared api10_6Config = false ∧
    NSCollectionViewPrefetching.declared api10_6Config = false ∧
    danglingNames api10_6Config instanceVariableSignatures =
      [("_dataSource", "NSCollectionViewDataSource"),
       ("_prefetchDataSource", "NSCollectionViewPrefetching")] ∧
    danglingNames api10_6Config (visibleMethodSignatures api10_6Config) = [] := by
  decide

/-- C12: in NSCollectionViewDelegate the methods gated at API 10.6 are the six index-based
drag-and-drop methods; each follows, in the header, an index-path counterpart gated at API
10.11 that has the same return type and the same number of arguments; at a setting where
the 10.6 gate is open and the 10.11 gate closed (API version from 10.6 up to but not
including 10.11) exactly the index-based variants of the six pairs are visible, and where
both gates are open (API version 10.11 or later) both variants are. -/
theorem delegate_index_variants :
    ((gatedMethods [] NSCollectionViewDelegate.body).filter
        (fun e => decide (e.2 = [since10_6]))).map (fun e => e.1.selector) =
      dragDropVariants.map (fun pr => pr.1) ∧
    ((gatedMethods [] NSCollectionViewDelegate.body).take 12).map (fun e => e.1.selector) =
      dragDropVariants.flatMap (fun pr => [pr.2, pr.1]) ∧
    (∀ pr ∈ dragDropVariants,
      NSCollectionViewDelegate.gatesOf pr.1 = some [since10_6] ∧
      NSCollectionViewDelegate.gatesOf pr.2 = some [since10_11] ∧
      NSCollectionViewDelegate.shapeOf pr.1 = NSCollectionViewDelegate.shapeOf pr.2) ∧
    (∀ cfg : Config, cfg.holds since10_6 = true → cfg.holds since10_11 = false →
      ∀ pr ∈ dragDropVariants,
        pr.1 ∈ visibleSelectors cfg NSCollectionViewDelegate ∧
        pr.2 ∉ visibleSelectors cfg NSCollectionViewDelegate) ∧
    (∀ cfg : Config, cfg.holds since10_6 = true → cfg.holds since10_11 = true →
      ∀ pr ∈ dragDropVariants,
        pr.1 ∈ visibleSelectors cfg NSCollectionViewDelegate ∧
        pr.2 ∈ visibleSelectors cfg NSCollectionViewDelegate) := by
  refine ⟨by decide, by decide, by decide, ?_, ?_⟩
  · intro cfg h6 h11
    unfold visibleSelectors
    rw [protocol_methods_normalize _ delegate_availability delegate_conditions cfg]
    unfold Config.normalize
    rw [h6, h11]
    generalize cfg.holds since10_12 = b12
    generalize cfg.GS_PROTOCOLS_HAVE_OPTIONAL = opt
    cases b12 <;> cases opt <;> decide
  · intro cfg h6 h11
    unfold visibleSelectors
    rw [protocol_methods_normalize _ delegate_availability delegate_conditions cfg]
    unfold Config.normalize
    rw [h6, h11]
    generalize cfg.holds since10_12 = b12
    generalize cfg.GS_PROTOCOLS_HAVE_OPTIONAL = opt
    cases b12 <;> cases opt <;> decide

/-- Instance of `delegate_index_variants` at the API 10.6 setting, for the pair of
`acceptDrop` methods: the index-based one is visible, the index-path one is not. -/
theorem delegate_index_variants_witness :
    "collectionView:acceptDrop:index:dropOperation:" ∈
      visibleSelectors api10_6Config NSCollectionViewDelegate ∧
    "collectionView:acceptDrop:indexPath:dropOperation:" ∉
      visibleSelectors api10_6Config NSCollectionViewDelegate :=
  delegate_index_variants.2.2.2.1 api10_6Config rfl rfl
    ("collectionView:acceptDrop:index:dropOperation:",
     "collectionView:acceptDrop:indexPath:dropOperation:") (by decide)

/-- C13: with every API version gate enabled, the selectors declared in
NSCollectionViewDelegate (29), in NSCollectionViewDataSource (4) and in the
NSCollectionView class interface (75) are pairwise distinct within each of the three. -/
theorem selectors_pairwise_distinct (cfg : Config)
    (hall : ∀ added removed, cfg.OS_API_VERSION added removed = true) :
    (visibleSelectors cfg NSCollectionViewDelegate).Nodup ∧
    (visibleSelectors cfg NSCollectionViewDataSource).Nodup ∧
    (NSCollectionView.selectors cfg).Nodup ∧
    (visibleSelectors cfg NSCollectionViewDelegate).length = 29 ∧
    (visibleSelectors cfg NSCollectionViewDataSource).length = 4 ∧
    (NSCollectionView.selectors cfg).length = 75 := by
  have h6 : cfg.holds since10_6 = true := hall _ _
  have h11 : cfg.holds since10_11 = true := hall _ _
  have h12 : cfg.holds since10_12 = true := hall _ _
  unfold visibleSelectors InterfaceDecl.selectors
  rw [protocol_methods_normalize _ delegate_availability delegate_conditions cfg,
    protocol_methods_normalize _ dataSource_availability dataSource_conditions cfg,
    interface_methods_normalize _ collectionView_conditions cfg]
  unfold Config.normalize
  rw [h6, h11, h12]
  generalize cfg.GS_PROTOCOLS_HAVE_OPTIONAL = opt
  cases opt <;> decide

/-- Instance of `selectors_pairwise_distinct` at the setting with every API gate open. -/
theorem selectors_pairwise_distinct_witness :
    (∀ added removed, latestConfig.OS_API_VERSION added removed = true) ∧
    (NSCollectionView.selectors latestConfig).Nodup ∧
    (NSCollectionView.selectors latestConfig).length = 75 :=
  ⟨fun _ _ => rfl,
    (selectors_pairwise_distinct latestConfig (fun _ _ => rfl)).2.2.1,
    (selectors_pairwise_distinct latestConfig (fun _ _ => rfl)).2.2.2.2.2⟩

end GNUstepGUI
